import Mathlib

/-!
Verification of the gemini-proxy gateway handlers.

The repository holds two serverless handler variants:
* `src/api/generate.js` — the plain variant: method check, API-key check,
  payload validation, upstream call with retry, response translation.
* `src/unnamed/part_000` — the authenticated variant: the same pipeline with a
  Firebase token-verification stage inserted after the configuration checks.

We embed both as pure Lean functions over a JSON model. External effects
(token verification, upstream fetch) are supplied as oracles in the
environment; the handler result is the HTTP response together with a trace of
the observable events (verification call, payload validation, upstream calls).
-/

namespace GeminiProxy

/-- JSON values as manipulated by the handlers. `jsUndefined` models the JavaScript
`undefined` value produced by reading an absent object field. -/
inductive Json where
  | null
  | jsUndefined
  | bool (b : Bool)
  | num (n : Int)
  | str (s : String)
  | arr (elems : List Json)
  | obj (fields : List (String × Json))

/-- JavaScript truthiness of a value (`!x` is the negation of this). -/
def Json.truthy : Json → Bool
  | .null => false
  | .jsUndefined => false
  | .bool b => b
  | .num n => n != 0
  | .str s => s != ""
  | .arr _ => true
  | .obj _ => true

/-- `Array.isArray`. -/
def Json.isArr : Json → Bool
  | .arr _ => true
  | _ => false

/-- A value is nullish (null or undefined); property access on it throws. -/
def Json.nullish : Json → Bool
  | .null => true
  | .jsUndefined => true
  | _ => false

/-- First-match lookup in a JavaScript object field list. -/
def lookupField : List (String × Json) → String → Option Json
  | [], _ => none
  | (k, v) :: rest, key => if k = key then some v else lookupField rest key

/-- Property read `v[key]` on a non-nullish receiver: objects yield the field
value or `undefined`; other values have no such own property. -/
def Json.getField : Json → String → Json
  | .obj fields, key => (lookupField fields key).getD .jsUndefined
  | _, _ => .jsUndefined

/-- Index read `v[i]` on a non-nullish receiver: arrays index positionally,
objects read the numeric-string key, strings yield a one-character string. -/
def Json.getIdx : Json → Nat → Json
  | .arr elems, i => (elems.get? i).getD .jsUndefined
  | .obj fields, i => (lookupField fields (toString i)).getD .jsUndefined
  | .str s, i =>
    match s.data.get? i with
    | some c => .str ⟨[c]⟩
    | none => .jsUndefined
  | _, _ => .jsUndefined

/-- Optional-chained field access `v?.[key]`. -/
def chF (v : Json) (key : String) : Json :=
  if v.nullish then .jsUndefined else v.getField key

/-- Optional-chained index access `v?.[i]`. -/
def chI (v : Json) (i : Nat) : Json :=
  if v.nullish then .jsUndefined else v.getIdx i

/-- `result.candidates?.[0]?.content?.parts?.[0]?.text`. The first access is
not optional-chained in the source; the caller guards `result` for nullishness
before evaluating this. -/
def extractText (result : Json) : Json :=
  chF (chI (chF (chF (chI (chF result "candidates") 0) "content") "parts") 0) "text"

/-- An HTTP response produced by `response.status(s).json(b)`. -/
structure HttpResponse where
  status : Nat
  body : Json

/-- `{ error: msg }`. -/
def errBody (msg : String) : Json := .obj [("error", .str msg)]

/-- `{ error: "AI Service Error", details: details }`. -/
def aiServiceErrorBody (details : Json) : Json :=
  .obj [("error", .str "AI Service Error"), ("details", details)]

/-- Outcome of one `fetch` to the upstream API: either the promise rejects
(connection error) or a response arrives with a status and a parsed JSON
body. -/
inductive FetchOutcome where
  | networkError
  | response (status : Nat) (body : Json)

/-- `Response.ok`: status in the range 200–299. -/
def statusOk (s : Nat) : Bool := decide (200 ≤ s ∧ s < 300)

/-- How the retry loop ended: `thrown` when an exception escaped to the
enclosing catch, `finished st body` when the loop broke with a last received
response. -/
inductive LoopExit where
  | thrown
  | finished (status : Nat) (body : Json)

/-- Result of the retry loop: its exit, the number of fetches performed, and
the total backoff time waited. -/
structure LoopRes where
  exit : LoopExit
  calls : Nat
  waited : Nat

/-- The retry loop of both handlers:

    for (let attempt = 0; attempt < maxRetries; attempt++) {
        geminiResponse = await fetch(...);
        if (geminiResponse.ok || attempt === maxRetries - 1) break;
        await new Promise(resolve => setTimeout(resolve, delay * Math.pow(2, attempt)));
    }

`attempts i` is the outcome of the i-th fetch; `fuel` counts the iterations
still allowed (initially `maxRetries`), so the current iteration is the last
one exactly when `fuel = 1`. A rejected fetch promise propagates out of the
loop at once (the catch is outside the loop), modelled by `thrown`. -/
def retryLoop (attempts : Nat → FetchOutcome) (delay : Nat) : Nat → Nat → LoopRes
  | 0, _ => ⟨.thrown, 0, 0⟩
  | fuel + 1, attempt =>
    match attempts attempt with
    | .networkError => ⟨.thrown, 1, 0⟩
    | .response status body =>
      if statusOk status || fuel == 0 then ⟨.finished status body, 1, 0⟩
      else
        let r := retryLoop attempts delay fuel (attempt + 1)
        ⟨r.exit, r.calls + 1, delay * 2 ^ attempt + r.waited⟩

/-- Code after the retry loop: map the loop result to the HTTP response.
A thrown exception reaches the catch block; otherwise a non-2xx status yields
the AI-Service-Error response; a 2xx response has its text extracted, where a
nullish body makes `result.candidates` throw (also reaching the catch), and a
falsy extracted text yields the empty-response error. -/
def translate (r : LoopRes) : HttpResponse :=
  match r.exit with
  | .thrown => ⟨500, errBody "Internal server error during fetch."⟩
  | .finished status body =>
    if statusOk status then
      if body.nullish then ⟨500, errBody "Internal server error during fetch."⟩
      else
        let text := extractText body
        if text.truthy then ⟨200, .obj [("text", text)]⟩
        else ⟨500, errBody "AI response was empty."⟩
    else ⟨status, aiServiceErrorBody body⟩

/-- The Gemini API payload built from the destructured `parts` and
`systemInstruction`. -/
def geminiPayload (parts systemInstruction : Json) : Json :=
  .obj [("contents", .arr [.obj [("role", .str "user"), ("parts", parts)]]),
        ("systemInstruction", .obj [("parts", .arr [.obj [("text", systemInstruction)]])])]

/-- Observable events of one request handling. -/
inductive Event where
  | verifyCall (token : String)
  | validatePayload
  | upstreamCall (attempt : Nat)
deriving DecidableEq, Repr

/-- An environment string is falsy when absent or empty. -/
def falsyKey : Option String → Bool
  | none => true
  | some s => s == ""

/-- An inbound HTTP request: method, the `authorization` header if present,
and the parsed JSON body if present (absent covers null and undefined). -/
structure Request where
  method : String
  authorization : Option String
  body : Option Json

/-- Payload validation and the upstream call, shared verbatim by both
handlers. Returns the response together with the events from this stage. -/
def processPayload (attempts : Nat → FetchOutcome) (body : Option Json) :
    HttpResponse × List Event :=
  let payload := body.getD (.obj [])
  let parts := payload.getField "parts"
  if !parts.truthy || !parts.isArr then
    (⟨400, errBody "Missing content parts."⟩, [.validatePayload])
  else
    let r := retryLoop attempts 1000 3 0
    (translate r, .validatePayload :: (List.range r.calls).map Event.upstreamCall)

/-- Environment of the plain variant `src/api/generate.js`. -/
structure PlainEnv where
  geminiApiKey : Option String
  attempts : Nat → FetchOutcome

/-- The plain handler of `src/api/generate.js`. -/
def plainHandler (env : PlainEnv) (req : Request) : HttpResponse × List Event :=
  if req.method ≠ "POST" then (⟨405, errBody "Method Not Allowed"⟩, [])
  else if falsyKey env.geminiApiKey then
    (⟨500, errBody "Server key not configured."⟩, [])
  else processPayload env.attempts req.body

/-- Outcome of `admin.auth().verifyIdToken(idToken)`: the promise rejects
(`throws`), resolves to a falsy value (`nullToken`), or resolves to a decoded
token whose `uid` may or may not be null. -/
inductive VerifyOutcome where
  | throws
  | nullToken
  | token (uidNull : Bool)
deriving DecidableEq, Repr

/-- Character-level test that `p` begins the list `s`. -/
def strStartsWith (s p : String) : Bool := p.data.isPrefixOf s.data

/-- Characters after the first occurrence of the separator, if any. -/
def afterFirstSep (sep : List Char) : List Char → Option (List Char)
  | [] => none
  | c :: rest =>
    if sep.isPrefixOf (c :: rest) then some ((c :: rest).drop sep.length)
    else afterFirstSep sep rest

/-- Characters before the next occurrence of the separator. -/
def upToSep (sep : List Char) : List Char → List Char
  | [] => []
  | c :: rest => if sep.isPrefixOf (c :: rest) then [] else c :: upToSep sep rest

/-- `authHeader.split("Bearer ")[1]`: the segment between the first occurrence
of the separator and the next one (or the end). The handler only evaluates
this when the header starts with the marker, so the split has a second
component; absent one the JavaScript value would be undefined, modelled by
the empty string. -/
def bearerToken (h : String) : String :=
  match afterFirstSep "Bearer ".data h.data with
  | some l => ⟨upToSep "Bearer ".data l⟩
  | none => ""

/-- Environment of the authenticated variant `src/unnamed/part_000`. -/
structure AuthEnv where
  geminiApiKey : Option String
  serviceAccountKey : Option String
  adminApps : Nat
  verify : String → VerifyOutcome
  attempts : Nat → FetchOutcome

/-- The authenticated handler of `src/unnamed/part_000`. -/
def authHandler (env : AuthEnv) (req : Request) : HttpResponse × List Event :=
  if req.method ≠ "POST" then (⟨405, errBody "Method Not Allowed"⟩, [])
  else if falsyKey env.geminiApiKey then
    (⟨500, errBody "Server key not configured."⟩, [])
  else if falsyKey env.serviceAccountKey || env.adminApps == 0 then
    (⟨500, errBody "Firebase Admin not configured on server."⟩, [])
  else
    match req.authorization with
    | none => (⟨401, errBody "Authorization header missing or invalid."⟩, [])
    | some h =>
      if !(strStartsWith h "Bearer ") then
        (⟨401, errBody "Authorization header missing or invalid."⟩, [])
      else
        let idToken := bearerToken h
        match env.verify idToken with
        | .throws =>
          (⟨403, errBody "Access denied: Token verification failed."⟩, [.verifyCall idToken])
        | .nullToken =>
          (⟨403, errBody "Invalid or revoked user token."⟩, [.verifyCall idToken])
        | .token true =>
          (⟨403, errBody "Invalid or revoked user token."⟩, [.verifyCall idToken])
        | .token false =>
          let r := processPayload env.attempts req.body
          (r.1, .verifyCall idToken :: r.2)

/-! Concrete inputs used by witnesses and counterexamples. -/

/-- An upstream success body carrying the text "hi" at the expected path. -/
def okBody : Json :=
  .obj [("candidates", .arr [.obj [("content",
    .obj [("parts", .arr [.obj [("text", .str "hi")]])])]])]

/-- An upstream success body whose text path is fully present but whose text
is the empty string. -/
def emptyTextBody : Json :=
  .obj [("candidates", .arr [.obj [("content",
    .obj [("parts", .arr [.obj [("text", .str "")]])])]])]

/-- A valid request body: one content part and a system instruction. -/
def validBody : Json :=
  .obj [("parts", .arr [.obj [("text", .str "hello")]]),
        ("systemInstruction", .str "be terse")]

/-- Upstream succeeds with `okBody` on every attempt. -/
def allOk : Nat → FetchOutcome := fun _ => .response 200 okBody

/-- Upstream fails with 503 on attempts 0 and 1 and succeeds on attempt 2. -/
def failFailOk : Nat → FetchOutcome :=
  fun i => if i < 2 then .response 503 (.str "overloaded") else .response 200 okBody

/-- Upstream fails with 503 on every attempt. -/
def allFail : Nat → FetchOutcome := fun _ => .response 503 (.str "overloaded")

/-- The first fetch rejects at the network level; later attempts would
succeed. -/
def netErrFirst : Nat → FetchOutcome :=
  fun i => if i = 0 then .networkError else .response 200 okBody

/-- Upstream succeeds but with an empty text on every attempt. -/
def allEmptyText : Nat → FetchOutcome := fun _ => .response 200 emptyTextBody

/-- A POST request with no authorization header and a valid body. -/
def postReq : Request := ⟨"POST", none, some validBody⟩

/-- A POST request with a bearer token and a valid body. -/
def bearerReq : Request := ⟨"POST", some "Bearer tok", some validBody⟩

/-- A POST request whose body has an empty parts array. -/
def emptyPartsReq : Request := ⟨"POST", none, some (.obj [("parts", .arr [])])⟩

/-- A verification oracle that always rejects the token promise. -/
def verifyThrows : String → VerifyOutcome := fun _ => .throws

/-- A verification oracle that resolves to a token with a null uid. -/
def verifyUidNull : String → VerifyOutcome := fun _ => .token true

/-- A verification oracle that accepts every token. -/
def verifyAccept : String → VerifyOutcome := fun _ => .token false

/-- A verification oracle under which the token "expired" fails verification,
the token "revoked" resolves with a null uid, and every other token is
accepted. -/
def verifyByToken : String → VerifyOutcome :=
  fun t => if t = "expired" then .throws else if t = "revoked" then .token true else .token false

/-- A POST request bearing the token "expired". -/
def expiredReq : Request := ⟨"POST", some "Bearer expired", some validBody⟩

/-- A POST request bearing the token "revoked". -/
def revokedReq : Request := ⟨"POST", some "Bearer revoked", some validBody⟩

/-- A POST request whose parts field is a string rather than an array. -/
def nonArrayPartsReq : Request := ⟨"POST", some "Bearer tok", some (.obj [("parts", .str "x")])⟩

/-- A plain environment with a configured key and the given upstream. -/
def plainEnv (a : Nat → FetchOutcome) : PlainEnv := ⟨some "k", a⟩

/-- An authenticated environment with full configuration, the given verifier
and the given upstream. -/
def authEnv (v : String → VerifyOutcome) (a : Nat → FetchOutcome) : AuthEnv :=
  ⟨some "k", some "sa", 1, v, a⟩

/-! Helper lemmas about the retry loop and the shared pipeline stages. -/

theorem retryLoop_networkError (attempts : Nat → FetchOutcome) (delay fuel attempt : Nat)
    (h : attempts attempt = .networkError) :
    retryLoop attempts delay (fuel + 1) attempt = ⟨.thrown, 1, 0⟩ := by
  simp [retryLoop, h]

theorem retryLoop_break (attempts : Nat → FetchOutcome) (delay fuel attempt : Nat)
    (st : Nat) (b : Json) (h : attempts attempt = .response st b)
    (hc : statusOk st = true ∨ fuel = 0) :
    retryLoop attempts delay (fuel + 1) attempt = ⟨.finished st b, 1, 0⟩ := by
  rcases hc with hc | hc <;> simp [retryLoop, h, hc]

theorem retryLoop_step (attempts : Nat → FetchOutcome) (delay fuel attempt : Nat)
    (st : Nat) (b : Json) (h : attempts attempt = .response st b)
    (hok : statusOk st = false) (hf : fuel ≠ 0) :
    retryLoop attempts delay (fuel + 1) attempt =
      ⟨(retryLoop attempts delay fuel (attempt + 1)).exit,
       (retryLoop attempts delay fuel (attempt + 1)).calls + 1,
       delay * 2 ^ attempt + (retryLoop attempts delay fuel (attempt + 1)).waited⟩ := by
  simp [retryLoop, h, hok, hf]

theorem retryLoop_calls_le (attempts : Nat → FetchOutcome) (delay : Nat) :
    ∀ fuel attempt, (retryLoop attempts delay fuel attempt).calls ≤ fuel := by
  intro fuel
  induction fuel with
  | zero => intro attempt; simp [retryLoop]
  | succ n ih =>
    intro attempt
    cases h : attempts attempt with
    | networkError => simp [retryLoop, h]
    | response st b =>
      by_cases hc : statusOk st = true ∨ n = 0
      · rw [retryLoop_break attempts delay n attempt st b h hc]
        exact Nat.succ_le_succ (Nat.zero_le n)
      · push_neg at hc
        rw [retryLoop_step attempts delay n attempt st b h
          (by simpa using hc.1) hc.2]
        exact Nat.succ_le_succ (ih (attempt + 1))

theorem retryLoop_calls_pos (attempts : Nat → FetchOutcome) (delay fuel attempt : Nat)
    (h : fuel ≠ 0) : 1 ≤ (retryLoop attempts delay fuel attempt).calls := by
  obtain ⟨n, rfl⟩ := Nat.exists_eq_succ_of_ne_zero h
  cases hA : attempts attempt with
  | networkError => simp [retryLoop, hA]
  | response st b =>
    by_cases hc : statusOk st = true ∨ n = 0
    · rw [retryLoop_break attempts delay n attempt st b hA hc]
    · push_neg at hc
      rw [retryLoop_step attempts delay n attempt st b hA (by simpa using hc.1) hc.2]
      exact Nat.le_add_left 1 _

theorem processPayload_invalid (attempts : Nat → FetchOutcome) (body : Option Json)
    (h : ((body.getD (.obj [])).getField "parts").isArr = false) :
    processPayload attempts body = (⟨400, errBody "Missing content parts."⟩, [.validatePayload]) := by
  simp [processPayload, h]

theorem processPayload_valid (attempts : Nat → FetchOutcome) (body : Option Json)
    (l : List Json) (h : (body.getD (.obj [])).getField "parts" = .arr l) :
    processPayload attempts body =
      (translate (retryLoop attempts 1000 3 0),
       .validatePayload ::
         (List.range (retryLoop attempts 1000 3 0).calls).map Event.upstreamCall) := by
  simp [processPayload, h, Json.truthy, Json.isArr]

theorem plainHandler_run (env : PlainEnv) (req : Request)
    (hm : req.method = "POST") (hk : falsyKey env.geminiApiKey = false) :
    plainHandler env req = processPayload env.attempts req.body := by
  simp [plainHandler, hm, hk]

theorem authHandler_run (env : AuthEnv) (req : Request) (h : String)
    (hm : req.method = "POST") (hk : falsyKey env.geminiApiKey = false)
    (hs : falsyKey env.serviceAccountKey = false) (ha : env.adminApps ≠ 0)
    (hh : req.authorization = some h) (hb : strStartsWith h "Bearer " = true)
    (hv : env.verify (bearerToken h) = .token false) :
    authHandler env req =
      ((processPayload env.attempts req.body).1,
       .verifyCall (bearerToken h) :: (processPayload env.attempts req.body).2) := by
  simp [authHandler, hm, hk, hs, ha, hh, hb, hv]

/-! Claim theorems. -/

/-- Claim C5: for every validated payload, the upstream request builder
produces a body whose contents field is a single-element list with role
"user", whose contents first element has parts exactly the input parts
sequence, and whose systemInstruction parts first text equals the input
system instruction. Determinism and absence of mutation hold because
`geminiPayload` is a pure function of its arguments. -/
theorem geminiPayload_shape (l : List Json) (s : Json) :
    (geminiPayload (.arr l) s).getField "contents" =
      .arr [.obj [("role", .str "user"), ("parts", .arr l)]] ∧
    ((geminiPayload (.arr l) s).getField "contents").getIdx 0 =
      .obj [("role", .str "user"), ("parts", .arr l)] ∧
    (((geminiPayload (.arr l) s).getField "contents").getIdx 0).getField "role" = .str "user" ∧
    (((geminiPayload (.arr l) s).getField "contents").getIdx 0).getField "parts" = .arr l ∧
    ((((geminiPayload (.arr l) s).getField "systemInstruction").getField "parts").getIdx 0).getField
      "text" = s :=
  ⟨rfl, rfl, rfl, rfl, rfl⟩

/-- Claim C6: past the configuration checks (and, in the authenticated
variant, a successful verification), a body whose parts field is absent or
not an array draws a 400 Missing-content-parts response, and the event trace
contains no upstream call. -/
theorem missingParts_rejected (penv : PlainEnv) (aenv : AuthEnv) (req : Request) (h : String)
    (hm : req.method = "POST")
    (hpk : falsyKey penv.geminiApiKey = false)
    (hak : falsyKey aenv.geminiApiKey = false)
    (hs : falsyKey aenv.serviceAccountKey = false) (ha : aenv.adminApps ≠ 0)
    (hh : req.authorization = some h) (hb : strStartsWith h "Bearer " = true)
    (hv : aenv.verify (bearerToken h) = .token false)
    (hparts : ((req.body.getD (.obj [])).getField "parts").isArr = false) :
    plainHandler penv req = (⟨400, errBody "Missing content parts."⟩, [.validatePayload]) ∧
    authHandler aenv req =
      (⟨400, errBody "Missing content parts."⟩,
       [.verifyCall (bearerToken h), .validatePayload]) := by
  constructor
  · rw [plainHandler_run penv req hm hpk, processPayload_invalid _ _ hparts]
  · rw [authHandler_run aenv req h hm hak hs ha hh hb hv, processPayload_invalid _ _ hparts]

/-- Claim C6 witness: a request whose parts field is a string is rejected
with 400 by both variants and no upstream call happens. -/
theorem missingParts_rejected_witness :
    ((nonArrayPartsReq.body.getD (.obj [])).getField "parts").isArr = false ∧
    plainHandler (plainEnv allOk) nonArrayPartsReq =
      (⟨400, errBody "Missing content parts."⟩, [.validatePayload]) ∧
    authHandler (authEnv verifyAccept allOk) nonArrayPartsReq =
      (⟨400, errBody "Missing content parts."⟩,
       [.verifyCall (bearerToken "Bearer tok"), .validatePayload]) :=
  ⟨rfl,
   (missingParts_rejected (plainEnv allOk) (authEnv verifyAccept allOk) nonArrayPartsReq
     "Bearer tok" rfl rfl rfl rfl (by decide) rfl (by decide) rfl rfl).1,
   (missingParts_rejected (plainEnv allOk) (authEnv verifyAccept allOk) nonArrayPartsReq
     "Bearer tok" rfl rfl rfl rfl (by decide) rfl (by decide) rfl rfl).2⟩

/-- Claim C8 counterexample: with the server API key unset, a GET request is
answered 405, not 500: the method check precedes the key check in both
variants, so the claimed method-independence fails. -/
theorem missingKey_method_counterexample :
    (plainHandler ⟨none, allOk⟩ ⟨"GET", none, none⟩).1.status = 405 ∧
    (plainHandler ⟨none, allOk⟩ ⟨"GET", none, none⟩).1.status ≠ 500 ∧
    (authHandler ⟨none, none, 0, verifyAccept, allOk⟩ ⟨"GET", none, none⟩).1.status = 405 ∧
    (authHandler ⟨none, none, 0, verifyAccept, allOk⟩ ⟨"GET", none, none⟩).1.status ≠ 500 :=
  ⟨rfl, by decide, rfl, by decide⟩

/-- Claim C8 amended: for every POST request received while the server API
key is falsy, both variants answer 500 Server-key-not-configured regardless
of headers and body; non-POST requests are answered 405 first. -/
theorem missingKey_500 (penv : PlainEnv) (aenv : AuthEnv) (req : Request)
    (hm : req.method = "POST")
    (hpk : falsyKey penv.geminiApiKey = true) (hak : falsyKey aenv.geminiApiKey = true) :
    plainHandler penv req = (⟨500, errBody "Server key not configured."⟩, []) ∧
    authHandler aenv req = (⟨500, errBody "Server key not configured."⟩, []) := by
  constructor
  · simp [plainHandler, hm, hpk]
  · simp [authHandler, hm, hak]

/-- Claim C8 amended witness: a POST request with an unset key in the plain
variant and an empty-string key in the authenticated variant gets 500. -/
theorem missingKey_500_witness :
    falsyKey (PlainEnv.geminiApiKey ⟨none, allOk⟩) = true ∧
    plainHandler ⟨none, allOk⟩ postReq = (⟨500, errBody "Server key not configured."⟩, []) ∧
    authHandler ⟨some "", some "sa", 1, verifyAccept, allOk⟩ postReq =
      (⟨500, errBody "Server key not configured."⟩, []) :=
  ⟨rfl,
   (missingKey_500 ⟨none, allOk⟩ ⟨some "", some "sa", 1, verifyAccept, allOk⟩ postReq
     rfl rfl rfl).1,
   (missingKey_500 ⟨none, allOk⟩ ⟨some "", some "sa", 1, verifyAccept, allOk⟩ postReq
     rfl rfl rfl).2⟩

/-- Claim C10: a wholly absent request body is replaced by an empty object,
so both variants answer 400 Missing-content-parts without an upstream call
and without raising: the handlers are total over absent bodies. -/
theorem absentBody_400 (penv : PlainEnv) (aenv : AuthEnv) (req : Request) (h : String)
    (hm : req.method = "POST")
    (hpk : falsyKey penv.geminiApiKey = false)
    (hak : falsyKey aenv.geminiApiKey = false)
    (hs : falsyKey aenv.serviceAccountKey = false) (ha : aenv.adminApps ≠ 0)
    (hh : req.authorization = some h) (hb : strStartsWith h "Bearer " = true)
    (hv : aenv.verify (bearerToken h) = .token false)
    (hbody : req.body = none) :
    plainHandler penv req = (⟨400, errBody "Missing content parts."⟩, [.validatePayload]) ∧
    authHandler aenv req =
      (⟨400, errBody "Missing content parts."⟩,
       [.verifyCall (bearerToken h), .validatePayload]) := by
  have hparts : ((req.body.getD (.obj [])).getField "parts").isArr = false := by
    rw [hbody]; rfl
  constructor
  · rw [plainHandler_run penv req hm hpk, processPayload_invalid _ _ hparts]
  · rw [authHandler_run aenv req h hm hak hs ha hh hb hv, processPayload_invalid _ _ hparts]

/-- Claim C10 witness: a bodiless POST request is answered 400 by both
variants with no upstream call. -/
theorem absentBody_400_witness :
    (Request.body ⟨"POST", some "Bearer tok", none⟩ = none) ∧
    plainHandler (plainEnv allOk) ⟨"POST", some "Bearer tok", none⟩ =
      (⟨400, errBody "Missing content parts."⟩, [.validatePayload]) ∧
    authHandler (authEnv verifyAccept allOk) ⟨"POST", some "Bearer tok", none⟩ =
      (⟨400, errBody "Missing content parts."⟩,
       [.verifyCall (bearerToken "Bearer tok"), .validatePayload]) :=
  ⟨rfl,
   (absentBody_400 (plainEnv allOk) (authEnv verifyAccept allOk)
     ⟨"POST", some "Bearer tok", none⟩ "Bearer tok"
     rfl rfl rfl rfl (by decide) rfl (by decide) rfl rfl).1,
   (absentBody_400 (plainEnv allOk) (authEnv verifyAccept allOk)
     ⟨"POST", some "Bearer tok", none⟩ "Bearer tok"
     rfl rfl rfl rfl (by decide) rfl (by decide) rfl rfl).2⟩

/-- Claim C9: in the authenticated variant, whenever the event trace shows a
payload validation or an upstream call, the trace starts with a verification
call whose outcome was a token with a non-null uid: no processing happens
unless verification already succeeded. -/
theorem verificationGatesProcessing (env : AuthEnv) (req : Request)
    (hyp : Event.validatePayload ∈ (authHandler env req).2 ∨
           ∃ n, Event.upstreamCall n ∈ (authHandler env req).2) :
    ∃ t, (authHandler env req).2.head? = some (.verifyCall t) ∧
         env.verify t = .token false := by
  by_cases hm : req.method ≠ "POST"
  · simp [authHandler, hm] at hyp
  by_cases hk : falsyKey env.geminiApiKey
  · simp [authHandler, hm, hk] at hyp
  by_cases hs : (falsyKey env.serviceAccountKey || env.adminApps == 0) = true
  · simp [authHandler, hm, hk, hs] at hyp
  cases hauth : req.authorization with
  | none => simp [authHandler, hm, hk, hs, hauth] at hyp
  | some h =>
    by_cases hb : strStartsWith h "Bearer "
    case neg => simp [authHandler, hm, hk, hs, hauth, hb] at hyp
    cases hv : env.verify (bearerToken h) with
    | throws => simp [authHandler, hm, hk, hs, hauth, hb, hv] at hyp
    | nullToken => simp [authHandler, hm, hk, hs, hauth, hb, hv] at hyp
    | token u =>
      cases u with
      | true => simp [authHandler, hm, hk, hs, hauth, hb, hv] at hyp
      | false =>
        refine ⟨bearerToken h, ?_, hv⟩
        simp [authHandler, hm, hk, hs, hauth, hb, hv]

/-- Claim C9 witness: with an accepting verifier and a valid request, the
trace contains a payload validation, and hence starts with the successful
verification call. -/
theorem verificationGatesProcessing_witness :
    (Event.validatePayload ∈ (authHandler (authEnv verifyAccept allOk) bearerReq).2 ∨
     ∃ n, Event.upstreamCall n ∈ (authHandler (authEnv verifyAccept allOk) bearerReq).2) ∧
    ∃ t, (authHandler (authEnv verifyAccept allOk) bearerReq).2.head? =
           some (.verifyCall t) ∧
         (authEnv verifyAccept allOk).verify t = .token false :=
  ⟨Or.inl (by decide),
   verificationGatesProcessing (authEnv verifyAccept allOk) bearerReq (Or.inl (by decide))⟩

/-- Claim C1 counterexample: under one environment, a request with an
expired-style token (verification rejects) and one with a revoked-style token
(null uid) both get status 403, but the response bodies differ, so the 403
response is not identical for all three failure reasons. -/
theorem forbidden_bodies_differ_counterexample :
    (authHandler (authEnv verifyByToken allOk) expiredReq).1.status = 403 ∧
    (authHandler (authEnv verifyByToken allOk) revokedReq).1.status = 403 ∧
    (authHandler (authEnv verifyByToken allOk) expiredReq).1.body =
      errBody "Access denied: Token verification failed." ∧
    (authHandler (authEnv verifyByToken allOk) revokedReq).1.body =
      errBody "Invalid or revoked user token." ∧
    (authHandler (authEnv verifyByToken allOk) expiredReq).1.body ≠
      (authHandler (authEnv verifyByToken allOk) revokedReq).1.body := by
  refine ⟨rfl, rfl, rfl, rfl, fun hEq => ?_⟩
  have h2 : Json.str "Access denied: Token verification failed." =
      Json.str "Invalid or revoked user token." :=
    congrArg (fun b => Json.getField b "error") hEq
  simp at h2

/-- Claim C1 amended: with server configuration present, a missing or
non-Bearer authorization header gets 401 with the missing-or-invalid body;
every verification failure gets status 403, where a rejected verification
yields the access-denied body while a null or revoked uid yields the
invalid-or-revoked body. -/
theorem authFailure_statuses (env : AuthEnv) (req : Request)
    (hm : req.method = "POST") (hk : falsyKey env.geminiApiKey = false)
    (hs : falsyKey env.serviceAccountKey = false) (ha : env.adminApps ≠ 0) :
    (req.authorization = none →
      (authHandler env req).1 = ⟨401, errBody "Authorization header missing or invalid."⟩) ∧
    (∀ h, req.authorization = some h → strStartsWith h "Bearer " = false →
      (authHandler env req).1 = ⟨401, errBody "Authorization header missing or invalid."⟩) ∧
    (∀ h, req.authorization = some h → strStartsWith h "Bearer " = true →
      (env.verify (bearerToken h) = .throws →
        (authHandler env req).1 = ⟨403, errBody "Access denied: Token verification failed."⟩) ∧
      ((env.verify (bearerToken h) = .nullToken ∨ env.verify (bearerToken h) = .token true) →
        (authHandler env req).1 = ⟨403, errBody "Invalid or revoked user token."⟩)) := by
  refine ⟨fun hN => ?_, fun h hh hb => ?_, fun h hh hb => ⟨fun hv => ?_, fun hv => ?_⟩⟩
  · simp [authHandler, hm, hk, hs, ha, hN]
  · simp [authHandler, hm, hk, hs, ha, hh, hb]
  · simp [authHandler, hm, hk, hs, ha, hh, hb, hv]
  · rcases hv with hv | hv <;> simp [authHandler, hm, hk, hs, ha, hh, hb, hv]

/-- Claim C1 amended witness: a rejected verification on a well-formed Bearer
header gets the 403 access-denied response. -/
theorem authFailure_statuses_witness :
    strStartsWith "Bearer expired" "Bearer " = true ∧
    AuthEnv.verify (authEnv verifyByToken allOk) (bearerToken "Bearer expired") = .throws ∧
    (authHandler (authEnv verifyByToken allOk) expiredReq).1 =
      ⟨403, errBody "Access denied: Token verification failed."⟩ :=
  ⟨by decide, rfl,
   ((authFailure_statuses (authEnv verifyByToken allOk) expiredReq rfl rfl rfl
      (by decide)).2.2 "Bearer expired" rfl (by decide)).1 rfl⟩

/-- Claim C2: the resilient caller makes at most 3 attempts; it stops at once
on a 2xx response; a failure then a 2xx costs one backoff of 1000 time-units;
two failures then a third attempt cost backoffs of 1000 and 2000 time-units
and the third response is the outcome, which for a final non-2xx response is
translated to its status with the AI-Service-Error body; and past the gates
the handler response is the translation of the retry loop outcome. -/
theorem retryPolicy :
    (∀ attempts, (retryLoop attempts 1000 3 0).calls ≤ 3) ∧
    (∀ attempts st b, attempts 0 = .response st b → statusOk st = true →
      retryLoop attempts 1000 3 0 = ⟨.finished st b, 1, 0⟩) ∧
    (∀ attempts st0 b0 st1 b1,
      attempts 0 = .response st0 b0 → statusOk st0 = false →
      attempts 1 = .response st1 b1 → statusOk st1 = true →
      retryLoop attempts 1000 3 0 = ⟨.finished st1 b1, 2, 1000 * 2 ^ 0⟩) ∧
    (∀ attempts st0 b0 st1 b1 st2 b2,
      attempts 0 = .response st0 b0 → statusOk st0 = false →
      attempts 1 = .response st1 b1 → statusOk st1 = false →
      attempts 2 = .response st2 b2 →
      retryLoop attempts 1000 3 0 =
        ⟨.finished st2 b2, 3, 1000 * 2 ^ 0 + 1000 * 2 ^ 1⟩ ∧
      (statusOk st2 = false →
        translate (retryLoop attempts 1000 3 0) = ⟨st2, aiServiceErrorBody b2⟩)) ∧
    (∀ env req l, req.method = "POST" → falsyKey env.geminiApiKey = false →
      (req.body.getD (.obj [])).getField "parts" = .arr l →
      (plainHandler env req).1 = translate (retryLoop env.attempts 1000 3 0)) := by
  refine ⟨fun attempts => retryLoop_calls_le attempts 1000 3 0, ?_, ?_, ?_, ?_⟩
  · intro attempts st b h hok
    exact retryLoop_break attempts 1000 2 0 st b h (Or.inl hok)
  · intro attempts st0 b0 st1 b1 h0 hok0 h1 hok1
    simp [retryLoop, h0, hok0, h1, hok1]
  · intro attempts st0 b0 st1 b1 st2 b2 h0 hok0 h1 hok1 h2
    have hL : retryLoop attempts 1000 3 0 =
        ⟨.finished st2 b2, 3, 1000 * 2 ^ 0 + 1000 * 2 ^ 1⟩ := by
      simp [retryLoop, h0, hok0, h1, hok1, h2]
    refine ⟨hL, fun hok2 => ?_⟩
    rw [hL]
    simp [translate, hok2]
  · intro env req l hm hk hp
    rw [plainHandler_run env req hm hk, processPayload_valid env.attempts req.body l hp]

/-- Claim C2 witness: with every attempt failing at 503, the loop performs 3
calls, waits 1000 + 2000 time-units, and the caller receives 503 with the
AI-Service-Error body. -/
theorem retryPolicy_witness :
    allFail 0 = .response 503 (.str "overloaded") ∧ statusOk 503 = false ∧
    retryLoop allFail 1000 3 0 =
      ⟨.finished 503 (.str "overloaded"), 3, 1000 * 2 ^ 0 + 1000 * 2 ^ 1⟩ ∧
    translate (retryLoop allFail 1000 3 0) =
      ⟨503, aiServiceErrorBody (.str "overloaded")⟩ :=
  ⟨rfl, by decide,
   (retryPolicy.2.2.2.1 allFail 503 (.str "overloaded") 503 (.str "overloaded")
     503 (.str "overloaded") rfl (by decide) rfl (by decide) rfl).1,
   (retryPolicy.2.2.2.1 allFail 503 (.str "overloaded") 503 (.str "overloaded")
     503 (.str "overloaded") rfl (by decide) rfl (by decide) rfl).2 (by decide)⟩

/-- Claim C3 counterexample: a network failure on the first attempt is not
retried: the handler answers 500 after a single upstream call even though the
second attempt would have returned 2xx, so the transport failure is surfaced
without exhausting the 3 attempts. -/
theorem networkErrorAborts_counterexample :
    (plainHandler (plainEnv netErrFirst) postReq).1.status = 500 ∧
    (plainHandler (plainEnv netErrFirst) postReq).1.body.getField "error" =
      .str "Internal server error during fetch." ∧
    (plainHandler (plainEnv netErrFirst) postReq).2 = [.validatePayload, .upstreamCall 0] ∧
    netErrFirst 1 = .response 200 okBody ∧ statusOk 200 = true :=
  ⟨rfl, rfl, by decide, rfl, by decide⟩

/-- Claim C3 amended: a network-level fetch failure on any attempt aborts the
retry loop at once with an exception: after k failed non-2xx attempts a
connection error on attempt k leaves exactly k + 1 calls, and the exception
is surfaced as 500 Internal-server-error-during-fetch; past the gates the
handler response is the translation of the loop outcome. -/
theorem networkErrorAborts :
    (∀ attempts k, k < 3 → attempts k = .networkError →
      (∀ i, i < k → ∃ st b, attempts i = .response st b ∧ statusOk st = false) →
      (retryLoop attempts 1000 3 0).exit = .thrown ∧
      (retryLoop attempts 1000 3 0).calls = k + 1) ∧
    (∀ r : LoopRes, r.exit = .thrown →
      translate r = ⟨500, errBody "Internal server error during fetch."⟩) ∧
    (∀ env req l, req.method = "POST" → falsyKey env.geminiApiKey = false →
      (req.body.getD (.obj [])).getField "parts" = .arr l →
      (plainHandler env req).1 = translate (retryLoop env.attempts 1000 3 0)) := by
  refine ⟨?_, ?_, ?_⟩
  · intro attempts k hk hnet hfail
    interval_cases k
    · constructor <;> simp [retryLoop, hnet]
    · obtain ⟨st0, b0, h0, hok0⟩ := hfail 0 (by norm_num)
      constructor <;> simp [retryLoop, h0, hok0, hnet]
    · obtain ⟨st0, b0, h0, hok0⟩ := hfail 0 (by norm_num)
      obtain ⟨st1, b1, h1, hok1⟩ := hfail 1 (by norm_num)
      constructor <;> simp [retryLoop, h0, hok0, h1, hok1, hnet]
  · intro r hr
    simp [translate, hr]
  · intro env req l hm hk hp
    rw [plainHandler_run env req hm hk, processPayload_valid env.attempts req.body l hp]

/-- Claim C3 amended witness: a connection error on the very first attempt
ends the loop thrown after exactly one call. -/
theorem networkErrorAborts_witness :
    netErrFirst 0 = .networkError ∧
    (retryLoop netErrFirst 1000 3 0).exit = .thrown ∧
    (retryLoop netErrFirst 1000 3 0).calls = 0 + 1 :=
  ⟨rfl,
   (networkErrorAborts.1 netErrFirst 0 (by decide) rfl
     (fun i hi => absurd hi (Nat.not_lt_zero i))).1,
   (networkErrorAborts.1 netErrFirst 0 (by decide) rfl
     (fun i hi => absurd hi (Nat.not_lt_zero i))).2⟩

/-- Claim C4 counterexample: an upstream 2xx body in which every segment of
the path candidates[0].content.parts[0].text is present, with the text being
the empty string, is answered 500 AI-response-was-empty rather than 200: the
empty-response outcome is decided by falsiness, not only by path absence. -/
theorem emptyText_counterexample :
    (emptyTextBody.getField "candidates").nullish = false ∧
    (chI (emptyTextBody.getField "candidates") 0).nullish = false ∧
    (chF (chI (emptyTextBody.getField "candidates") 0) "content").nullish = false ∧
    (chF (chF (chI (emptyTextBody.getField "candidates") 0) "content") "parts").nullish
      = false ∧
    (chI (chF (chF (chI (emptyTextBody.getField "candidates") 0) "content") "parts")
      0).nullish = false ∧
    extractText emptyTextBody = .str "" ∧
    (plainHandler (plainEnv allEmptyText) postReq).1.status = 500 ∧
    (plainHandler (plainEnv allEmptyText) postReq).1.body.getField "error" =
      .str "AI response was empty." ∧
    (plainHandler (plainEnv allEmptyText) postReq).1.status ≠ 200 :=
  ⟨rfl, rfl, rfl, rfl, rfl, rfl, rfl, rfl, by decide⟩

/-- Claim C4 amended: for a final 2xx upstream response with a non-nullish
body, the handler answers 200 with the extracted text exactly when the
extracted value is truthy, and 500 AI-response-was-empty exactly when it is
falsy; an absent path segment yields undefined, which is falsy. -/
theorem emptyResponseCharacterization (st : Nat) (b : Json) (r : LoopRes)
    (hexit : r.exit = .finished st b) (hok : statusOk st = true)
    (hnn : b.nullish = false) :
    translate r = (if (extractText b).truthy then ⟨200, .obj [("text", extractText b)]⟩
                   else ⟨500, errBody "AI response was empty."⟩) ∧
    ((translate r).status = 500 ↔ (extractText b).truthy = false) ∧
    Json.truthy .jsUndefined = false := by
  refine ⟨?_, ?_, rfl⟩
  · simp [translate, hexit, hok, hnn]
  · by_cases ht : (extractText b).truthy <;> simp [translate, hexit, hok, hnn, ht]

/-- Claim C4 amended witness: for the 2xx empty-string-text body the response
has status 500. -/
theorem emptyResponseCharacterization_witness :
    statusOk 200 = true ∧ Json.nullish emptyTextBody = false ∧
    ((translate ⟨.finished 200 emptyTextBody, 1, 0⟩).status = 500 ↔
      (extractText emptyTextBody).truthy = false) :=
  ⟨by decide, rfl,
   (emptyResponseCharacterization 200 emptyTextBody ⟨.finished 200 emptyTextBody, 1, 0⟩
     rfl (by decide) rfl).2.1⟩

/-- Claim C7 counterexample: a body whose parts field is the empty array
passes validation and is forwarded upstream: the handler answers 200 and one
upstream call appears in the trace, rather than a rejection. -/
theorem emptyParts_accepted_counterexample :
    (plainHandler (plainEnv allOk) emptyPartsReq).1.status = 200 ∧
    (plainHandler (plainEnv allOk) emptyPartsReq).1 ≠
      ⟨400, errBody "Missing content parts."⟩ ∧
    (plainHandler (plainEnv allOk) emptyPartsReq).2 =
      [.validatePayload, .upstreamCall 0] := by
  refine ⟨rfl, fun hEq => ?_, by decide⟩
  have h2 : (plainHandler (plainEnv allOk) emptyPartsReq).1.status = 400 :=
    congrArg HttpResponse.status hEq
  exact absurd h2 (by decide)

/-- Claim C7 amended: validation only requires the parts field to be an
array: every array-typed parts value, the empty array included, passes
validation and the request is forwarded upstream (at least one fetch), with
the response determined by the retry loop. -/
theorem arrayParts_forwarded (env : PlainEnv) (req : Request) (l : List Json)
    (hm : req.method = "POST") (hk : falsyKey env.geminiApiKey = false)
    (hp : (req.body.getD (.obj [])).getField "parts" = .arr l) :
    Event.upstreamCall 0 ∈ (plainHandler env req).2 ∧
    (plainHandler env req).1 = translate (retryLoop env.attempts 1000 3 0) := by
  rw [plainHandler_run env req hm hk, processPayload_valid env.attempts req.body l hp]
  refine ⟨?_, rfl⟩
  have hc := retryLoop_calls_pos env.attempts 1000 3 0 (by decide)
  exact List.mem_cons_of_mem _ (List.mem_map.mpr ⟨0, List.mem_range.mpr hc, rfl⟩)

/-- Claim C7 amended witness: the empty-parts request is forwarded upstream. -/
theorem arrayParts_forwarded_witness :
    (emptyPartsReq.body.getD (.obj [])).getField "parts" = .arr [] ∧
    Event.upstreamCall 0 ∈ (plainHandler (plainEnv allOk) emptyPartsReq).2 :=
  ⟨rfl,
   (arrayParts_forwarded (plainEnv allOk) emptyPartsReq [] rfl rfl rfl).1⟩

end GeminiProxy
